import Mathlib

/-!
Verification development for the bike-rental demo (`src/Vsc_task/script1.py`).

Shallow embedding conventions:
* Timestamps are rationals, measured in seconds (Python `datetime` values);
  `datetime.now()` is modelled by passing the current time `now : ℚ` explicitly
  to the operations that read the wall clock.
* Prices and costs (Python floats) are rationals, so arithmetic is exact.
* `BikeRepository._bikes` is a Python dict keyed by `bike.id`; since `save`
  always keys records by the bike's own `id` field, the store is embedded as a
  `List Bike` in insertion order, with dict assignment = replace-in-place if
  the key is present, else append (CPython dict semantics), and lookup by `id`.
* `uuid.uuid4()` is modelled by passing the fresh identifier as an argument.
* The notifier (`send_rental_notification`) is a pure side effect; it is
  modelled as a log of `(customer_id, bike_id)` pairs in the service state.
* Python exceptions raised by `add_bike` (`ValueError` for unknown type tags,
  `KeyError` for missing dict fields) are modelled with `Except`; the input
  dict is a structure of `Option` fields so that absent keys are expressible.
-/

namespace BikeRental

/-- Status enum, from class `BikeStatus` (strings "available"/"rented"/"maintenance"). -/
inductive BikeStatus where
  | available
  | rented
  | maintenance
deriving DecidableEq, Repr

/-- The variant of a bike: `MountainBike`, `RoadBike`, or `ElectricBike`
(which carries the extra `battery_capacity` attribute). -/
inductive BikeKind where
  | mountain
  | road
  | electric (battery_capacity : ℚ)
deriving DecidableEq, Repr

/-- A bike record, from class `Bike` (fields set in `Bike.__init__`, plus the
subclass identity and the electric bike's battery payload). -/
structure Bike where
  id : String
  model : String
  price_per_hour : ℚ
  status : BikeStatus
  rental_start_time : Option ℚ
  kind : BikeKind
deriving DecidableEq, Repr

/-- `Bike.__init__`: fresh id, given model and price, status Available, no
rental start time. The uuid is passed in as `id`. -/
def mkBike (id : String) (model : String) (price_per_hour : ℚ) (kind : BikeKind) : Bike :=
  { id := id
    model := model
    price_per_hour := price_per_hour
    status := BikeStatus.available
    rental_start_time := none
    kind := kind }

/-- `Bike.is_available`. -/
def Bike.is_available (b : Bike) : Bool :=
  decide (b.status = BikeStatus.available)

/-- `Bike.rent(start_time)`: mutates on success. Embedded as returning the
(post-state, success flag) pair. -/
def Bike.rent (b : Bike) (start_time : ℚ) : Bike × Bool :=
  if b.is_available then
    ({ b with status := BikeStatus.rented, rental_start_time := some start_time }, true)
  else
    (b, false)

/-- `(now - start).total_seconds() / 3600`, the hours elapsed between two
timestamps given in seconds. -/
def hours_elapsed (start now : ℚ) : ℚ :=
  (now - start) / 3600

/-- `Bike.return_bike()`: the wall-clock read `datetime.now()` is passed in as
`now`. Returns the (post-state, cost) pair. The Python guard is
`self.status == BikeStatus.RENTED and self.rental_start_time` (a `datetime`
is always truthy, so the second conjunct is a not-`None` test). -/
def Bike.return_bike (b : Bike) (now : ℚ) : Bike × ℚ :=
  match b.status, b.rental_start_time with
  | BikeStatus.rented, some start =>
      ({ b with status := BikeStatus.available, rental_start_time := none },
       hours_elapsed start now * b.price_per_hour)
  | _, _ => (b, 0)

/-- The catalog store's contents (`BikeRepository._bikes`), in insertion order. -/
abbrev Repo := List Bike

/-- `BikeRepository.save`: `self._bikes[bike.id] = bike` — replace the entry
with the same key in place if present, else append (CPython dict update). -/
def save : Repo → Bike → Repo
  | [], b => [b]
  | x :: xs, b => if x.id = b.id then b :: xs else x :: save xs b

/-- `BikeRepository.find_by_id`: `self._bikes.get(bike_id)`. -/
def find_by_id : Repo → String → Option Bike
  | [], _ => none
  | x :: xs, bike_id => if x.id = bike_id then some x else find_by_id xs bike_id

/-- `BikeRepository.find_all`: `list(self._bikes.values())`. -/
def find_all (r : Repo) : List Bike := r

/-- `BikeRepository.delete`: `self._bikes.pop(bike_id, None) is not None` —
returns the store after removal together with the reported boolean. -/
def delete : Repo → String → Repo × Bool
  | [], _ => ([], false)
  | x :: xs, bike_id =>
      if x.id = bike_id then (xs, true)
      else
        let r := delete xs bike_id
        (x :: r.1, r.2)

/-- State of a `BikeRentalService` together with the observable notification
log (each successful `send_rental_notification(customer_id, bike_id)` call
appends one `(customer_id, bike_id)` pair). -/
structure ServiceState where
  repo : Repo
  notifications : List (String × String)
deriving DecidableEq, Repr

/-- The exceptions `add_bike` can raise: `ValueError(f"Unknown bike type: …")`
for an unrecognised type tag, and `KeyError` for a missing required dict key. -/
inductive AddError where
  | unknownType (tag : String)
  | keyError (key : String)
deriving DecidableEq, Repr

/-- The input dict of `add_bike`. Every key may be absent, as in a Python
dict; only these four keys are ever read by the code. -/
structure BikeData where
  type_tag : Option String
  model : Option String
  price_per_hour : Option ℚ
  battery_capacity : Option ℚ
deriving DecidableEq, Repr

/-- `BikeRentalService.add_bike(bike_data)`: reads
`bike_data.get('type', 'mountain')`, dispatches on the tag, constructs the
variant (raising `KeyError` if a required field is absent, in the evaluation
order of the Python subscripts), saves it and returns its id. The fresh uuid
is passed in as `fresh_id`. On an exception the state is returned unchanged
(the exception propagates before any mutation). -/
def add_bike (s : ServiceState) (d : BikeData) (fresh_id : String) :
    ServiceState × Except AddError String :=
  let bike_type := d.type_tag.getD "mountain"
  if bike_type = "mountain" then
    match d.model, d.price_per_hour with
    | some m, some p =>
        let bike := mkBike fresh_id m p BikeKind.mountain
        ({ s with repo := save s.repo bike }, Except.ok bike.id)
    | none, _ => (s, Except.error (AddError.keyError "model"))
    | some _, none => (s, Except.error (AddError.keyError "price_per_hour"))
  else if bike_type = "road" then
    match d.model, d.price_per_hour with
    | some m, some p =>
        let bike := mkBike fresh_id m p BikeKind.road
        ({ s with repo := save s.repo bike }, Except.ok bike.id)
    | none, _ => (s, Except.error (AddError.keyError "model"))
    | some _, none => (s, Except.error (AddError.keyError "price_per_hour"))
  else if bike_type = "electric" then
    match d.model, d.price_per_hour, d.battery_capacity with
    | some m, some p, some bc =>
        let bike := mkBike fresh_id m p (BikeKind.electric bc)
        ({ s with repo := save s.repo bike }, Except.ok bike.id)
    | none, _, _ => (s, Except.error (AddError.keyError "model"))
    | some _, none, _ => (s, Except.error (AddError.keyError "price_per_hour"))
    | some _, some _, none => (s, Except.error (AddError.keyError "battery_capacity"))
  else
    (s, Except.error (AddError.unknownType bike_type))

/-- `BikeRentalService.rent_bike(bike_id, customer_id)`: looks up the bike,
calls `bike.rent(datetime.now())` (the clock read is the `now` argument); on
success notifies, saves the mutated record and returns true; else false. -/
def rent_bike (s : ServiceState) (bike_id customer_id : String) (now : ℚ) :
    ServiceState × Bool :=
  match find_by_id s.repo bike_id with
  | none => (s, false)
  | some bike =>
      let r := bike.rent now
      if r.2 then
        ({ repo := save s.repo r.1,
           notifications := s.notifications ++ [(customer_id, bike_id)] }, true)
      else
        (s, false)

/-- `BikeRentalService.return_bike(bike_id)`: looks up the bike; if present,
calls `bike.return_bike()` (whose clock read is the `now` argument), saves,
prints the cost and returns true; if absent returns false. The third
component is the printed cost (`none` when nothing is printed). -/
def return_bike (s : ServiceState) (bike_id : String) (now : ℚ) :
    ServiceState × Bool × Option ℚ :=
  match find_by_id s.repo bike_id with
  | none => (s, false, none)
  | some bike =>
      let r := bike.return_bike now
      ({ s with repo := save s.repo r.1 }, true, some r.2)

/-- The data-model invariant: the rental-start timestamp is set iff the
status is Rented. -/
def startTimeInv (b : Bike) : Prop :=
  b.rental_start_time.isSome ↔ b.status = BikeStatus.rented

instance (b : Bike) : Decidable (startTimeInv b) := by
  unfold startTimeInv
  infer_instance

/-- The invariant lifted to every record of the catalog store. -/
def repoInv (r : Repo) : Prop :=
  ∀ b ∈ r, startTimeInv b

instance (r : Repo) : Decidable (repoInv r) := by
  unfold repoInv
  infer_instance

/-- A concrete available mountain bike used by the witnesses. -/
def bikeA : Bike := mkBike "A" "Trek Marlin" 10 BikeKind.mountain

/-- A concrete rented bike (rented at time 0) used by the witnesses. -/
def bikeR : Bike :=
  { id := "R"
    model := "Specialized Allez"
    price_per_hour := 12
    status := BikeStatus.rented
    rental_start_time := some 0
    kind := BikeKind.road }

/-- A record with the same identifier as `bikeA` but a different model. -/
def bikeA2 : Bike := { bikeA with model := "Marlin 7" }

/-- A concrete service state holding `bikeA` and `bikeR`, used by the witnesses. -/
def s1 : ServiceState := { repo := [bikeA, bikeR], notifications := [] }

/-- The empty service state, used by the witnesses. -/
def s0 : ServiceState := { repo := [], notifications := [] }

/-- Concrete input dict with an unsupported type tag (the "water bike" entry
of the usage example). -/
def dWater : BikeData :=
  { type_tag := some "water bike"
    model := some "Ris Power"
    price_per_hour := some 30
    battery_capacity := some 300 }

/-- Concrete well-formed electric-bike input dict. -/
def dElectric : BikeData :=
  { type_tag := some "electric"
    model := some "Rad Power"
    price_per_hour := some 15
    battery_capacity := some 500 }

/-- Concrete electric-bike input dict missing the required
`battery_capacity` key. -/
def dElectricNoBattery : BikeData :=
  { type_tag := some "electric"
    model := some "Rad Power"
    price_per_hour := some 15
    battery_capacity := none }

/-- Concrete input dict with the 'type' key absent but the other required
fields present. -/
def dNoType : BikeData :=
  { type_tag := none
    model := some "Trek Marlin"
    price_per_hour := some 10
    battery_capacity := none }

/-- The empty input dict: every key absent. -/
def dEmpty : BikeData :=
  { type_tag := none
    model := none
    price_per_hour := none
    battery_capacity := none }

theorem find_by_id_key {r : Repo} {bid : String} {b : Bike}
    (h : find_by_id r bid = some b) : b.id = bid := by
  induction r with
  | nil => simp [find_by_id] at h
  | cons x xs ih =>
    by_cases hx : x.id = bid
    · simp [find_by_id, hx] at h
      rw [← h]; exact hx
    · simp [find_by_id, hx] at h
      exact ih h

theorem find_by_id_eq_none {r : Repo} {bid : String}
    (h : ∀ y ∈ r, y.id ≠ bid) : find_by_id r bid = none := by
  induction r with
  | nil => rfl
  | cons x xs ih =>
    have hx : x.id ≠ bid := h x (List.mem_cons_self x xs)
    simp [find_by_id, hx]
    exact ih fun y hy => h y (List.mem_cons_of_mem x hy)

theorem find_by_id_save_self (r : Repo) (b : Bike) :
    find_by_id (save r b) b.id = some b := by
  induction r with
  | nil => simp [save, find_by_id]
  | cons x xs ih =>
    by_cases hx : x.id = b.id
    · simp [save, hx, find_by_id]
    · simp [save, hx, find_by_id, ih]

theorem find_by_id_save_other (r : Repo) (b : Bike) (bid : String) (h : bid ≠ b.id) :
    find_by_id (save r b) bid = find_by_id r bid := by
  induction r with
  | nil =>
    have : b.id ≠ bid := fun hb => h hb.symm
    simp [save, find_by_id, this]
  | cons x xs ih =>
    by_cases hx : x.id = b.id
    · have hxb : ¬ x.id = bid := fun hb => h ((hx.symm.trans hb)).symm
      have hbb : ¬ b.id = bid := fun hb => h hb.symm
      simp [save, if_pos hx, find_by_id, if_neg hxb, if_neg hbb]
    · by_cases hxb : x.id = bid
      · simp [save, if_neg hx, find_by_id, if_pos hxb]
      · simp [save, if_neg hx, find_by_id, if_neg hxb, ih]

theorem save_length_of_present (r : Repo) (b : Bike)
    (h : (find_by_id r b.id).isSome) : (save r b).length = r.length := by
  induction r with
  | nil => simp [find_by_id] at h
  | cons x xs ih =>
    by_cases hx : x.id = b.id
    · simp [save, hx]
    · simp [find_by_id, hx] at h
      simp [save, hx, ih h]

theorem save_idem (r : Repo) (b : Bike) : save (save r b) b = save r b := by
  induction r with
  | nil => simp [save]
  | cons x xs ih =>
    by_cases hx : x.id = b.id
    · simp [save, hx]
    · simp [save, hx, ih]

theorem mem_save {r : Repo} {b x : Bike} (h : x ∈ save r b) : x = b ∨ x ∈ r := by
  induction r with
  | nil =>
    simp [save] at h
    exact Or.inl h
  | cons y ys ih =>
    by_cases hy : y.id = b.id
    · simp [save, hy] at h
      rcases h with h | h
      · exact Or.inl h
      · exact Or.inr (List.mem_cons_of_mem y h)
    · simp [save, hy] at h
      rcases h with h | h
      · exact Or.inr (h ▸ List.mem_cons_self y ys)
      · rcases ih h with h' | h'
        · exact Or.inl h'
        · exact Or.inr (List.mem_cons_of_mem y h')

/-- C5: the entity-level rent(start_time) operation succeeds if and only if
the current status is Available; on success it records start_time and sets
the status to Rented; otherwise it leaves the bike unchanged and reports
failure. (It is a total function of the bike, so it never raises.) -/
theorem rent_spec (b : Bike) (t : ℚ) :
    ((b.rent t).2 = true ↔ b.status = BikeStatus.available) ∧
    (b.status = BikeStatus.available →
      b.rent t = ({ b with status := BikeStatus.rented, rental_start_time := some t }, true)) ∧
    (b.status ≠ BikeStatus.available → b.rent t = (b, false)) := by
  by_cases h : b.status = BikeStatus.available <;>
    simp [Bike.rent, Bike.is_available, h]

/-- C5 witness: renting the concrete available bike `bikeA` at time 0. -/
theorem rent_spec_witness :
    bikeA.rent 0 = ({ bikeA with status := BikeStatus.rented, rental_start_time := some 0 }, true) :=
  (rent_spec bikeA 0).2.1 rfl

/-- C2: the entity-level return transition succeeds only when the status is
Rented and a start time is recorded; on success the cost is
`hours_elapsed start now * price_per_hour`, the start time is cleared and the
status becomes Available; otherwise it returns zero and changes nothing. -/
theorem return_bike_spec (b : Bike) (now : ℚ) :
    (∀ start, b.status = BikeStatus.rented → b.rental_start_time = some start →
      b.return_bike now =
        ({ b with status := BikeStatus.available, rental_start_time := none },
         hours_elapsed start now * b.price_per_hour)) ∧
    (¬ (b.status = BikeStatus.rented ∧ b.rental_start_time.isSome) →
      b.return_bike now = (b, 0)) := by
  constructor
  · intro start hs hst
    simp [Bike.return_bike, hs, hst]
  · intro h
    cases hb : b.status <;> cases hst : b.rental_start_time <;>
      simp_all [Bike.return_bike]

/-- C2 witness: returning the concrete rented bike `bikeR` (rented at time 0,
price 12/hr) at time 7200 seconds = 2 hours. -/
theorem return_bike_spec_witness :
    bikeR.return_bike 7200 =
      ({ bikeR with status := BikeStatus.available, rental_start_time := none },
       hours_elapsed 0 7200 * bikeR.price_per_hour) :=
  (return_bike_spec bikeR 7200).1 0 rfl rfl

/-- C8: delete removes the record and returns true when a record with that id
is present (uniqueness of dict keys is the store's representation invariant),
and returns false with no change when absent. -/
theorem delete_spec (r : Repo) (bid : String) :
    (find_by_id r bid = none → delete r bid = (r, false)) ∧
    ((r.map Bike.id).Nodup → (find_by_id r bid).isSome →
      (delete r bid).2 = true ∧
      find_by_id (delete r bid).1 bid = none ∧
      ∀ bid2, bid2 ≠ bid → find_by_id (delete r bid).1 bid2 = find_by_id r bid2) := by
  induction r with
  | nil =>
    constructor
    · intro _; rfl
    · intro _ h; simp [find_by_id] at h
  | cons x xs ih =>
    constructor
    · intro h
      by_cases hx : x.id = bid
      · simp [find_by_id, hx] at h
      · simp [find_by_id, hx] at h
        simp [delete, hx, (ih.1 (by simpa [find_by_id] using h))]
    · intro hnd hfind
      have hnd' : (xs.map Bike.id).Nodup := (List.nodup_cons.mp hnd).2
      have hxmem : x.id ∉ xs.map Bike.id := (List.nodup_cons.mp hnd).1
      by_cases hx : x.id = bid
      · refine ⟨by simp [delete, hx], ?_, ?_⟩
        · simp only [delete, if_pos hx]
          apply find_by_id_eq_none
          intro y hy hyb
          exact hxmem (by
            rw [hx, ← hyb]
            exact List.mem_map_of_mem Bike.id hy)
        · intro bid2 hb2
          have hxb2 : ¬ x.id = bid2 := fun hh => hb2 (hx.symm.trans hh).symm
          simp [delete, if_pos hx, find_by_id, if_neg hxb2]
      · have hfind' : (find_by_id xs bid).isSome := by
          simpa [find_by_id, hx] using hfind
        obtain ⟨h1, h2, h3⟩ := ih.2 hnd' hfind'
        refine ⟨by simp [delete, hx, h1], ?_, ?_⟩
        · simp [delete, hx, find_by_id, h2]
        · intro bid2 hb2
          by_cases hxb2 : x.id = bid2
          · simp [delete, if_neg hx, find_by_id, if_pos hxb2]
          · simp [delete, if_neg hx, find_by_id, if_neg hxb2, h3 bid2 hb2]

/-- C8 witness: deleting the present id "A" from the concrete store, and
deleting the absent id "Z". -/
theorem delete_spec_witness :
    delete [bikeA, bikeR] "Z" = ([bikeA, bikeR], false) ∧
    (delete [bikeA, bikeR] "A").2 = true ∧
    find_by_id (delete [bikeA, bikeR] "A").1 "A" = none ∧
    find_by_id (delete [bikeA, bikeR] "A").1 "R" = find_by_id [bikeA, bikeR] "R" :=
  ⟨(delete_spec [bikeA, bikeR] "Z").1 rfl,
   ((delete_spec [bikeA, bikeR] "A").2 (by decide) rfl).1,
   ((delete_spec [bikeA, bikeR] "A").2 (by decide) rfl).2.1,
   ((delete_spec [bikeA, bikeR] "A").2 (by decide) rfl).2.2 "R" (by decide)⟩

/-- C9: save upserts by identifier and is idempotent: saving twice equals
saving once, and saving a record whose identifier is already present replaces
that entry (that lookup now yields the new record, all others are untouched)
without changing the store's size. -/
theorem save_spec (r : Repo) (b : Bike) :
    save (save r b) b = save r b ∧
    ((find_by_id r b.id).isSome →
      (save r b).length = r.length ∧
      find_by_id (save r b) b.id = some b ∧
      ∀ bid, bid ≠ b.id → find_by_id (save r b) bid = find_by_id r bid) :=
  ⟨save_idem r b,
   fun h => ⟨save_length_of_present r b h, find_by_id_save_self r b,
             fun bid hb => find_by_id_save_other r b bid hb⟩⟩

theorem find_by_id_mem {r : Repo} {bid : String} {b : Bike}
    (h : find_by_id r bid = some b) : b ∈ r := by
  induction r with
  | nil => simp [find_by_id] at h
  | cons x xs ih =>
    by_cases hx : x.id = bid
    · simp [find_by_id, hx] at h
      exact h ▸ List.mem_cons_self x xs
    · simp [find_by_id, hx] at h
      exact List.mem_cons_of_mem x (ih h)

theorem startTimeInv_mkBike (i m : String) (p : ℚ) (k : BikeKind) :
    startTimeInv (mkBike i m p k) := by
  simp [startTimeInv, mkBike]

theorem startTimeInv_rent (b : Bike) (t : ℚ) (h : startTimeInv b) :
    startTimeInv (b.rent t).1 := by
  by_cases ha : b.status = BikeStatus.available
  · simp [Bike.rent, Bike.is_available, ha, startTimeInv]
  · simpa [Bike.rent, Bike.is_available, ha] using h

theorem startTimeInv_return (b : Bike) (now : ℚ) (h : startTimeInv b) :
    startTimeInv (b.return_bike now).1 := by
  cases hsb : b.status <;> cases hst : b.rental_start_time <;>
    simp_all [Bike.return_bike, startTimeInv]

theorem repoInv_save (r : Repo) (b : Bike) (hr : repoInv r) (hb : startTimeInv b) :
    repoInv (save r b) := fun x hx =>
  (mem_save hx).elim (fun e => e ▸ hb) (fun hm => hr x hm)

/-- C9 witness: saving `bikeA2` (same id "A" as `bikeA`, new model) over the
concrete store `[bikeA, bikeR]`. -/
theorem save_spec_witness :
    save (save [bikeA, bikeR] bikeA2) bikeA2 = save [bikeA, bikeR] bikeA2 ∧
    (save [bikeA, bikeR] bikeA2).length = ([bikeA, bikeR] : Repo).length ∧
    find_by_id (save [bikeA, bikeR] bikeA2) bikeA2.id = some bikeA2 ∧
    find_by_id (save [bikeA, bikeR] bikeA2) "R" = find_by_id [bikeA, bikeR] "R" :=
  ⟨(save_spec [bikeA, bikeR] bikeA2).1,
   ((save_spec [bikeA, bikeR] bikeA2).2 rfl).1,
   ((save_spec [bikeA, bikeR] bikeA2).2 rfl).2.1,
   ((save_spec [bikeA, bikeR] bikeA2).2 rfl).2.2 "R" (by decide)⟩

/-- C1: rent_bike on the rental service returns false when the bike id is
absent; when present and Available it performs the Available→Rented
transition, appends exactly one notification, persists the mutated record
and returns true; when present but not Available it returns false, with the
state (hence the notification log) unchanged. -/
theorem rent_bike_spec (s : ServiceState) (bid cid : String) (now : ℚ) :
    (find_by_id s.repo bid = none → rent_bike s bid cid now = (s, false)) ∧
    (∀ b, find_by_id s.repo bid = some b → b.status = BikeStatus.available →
      rent_bike s bid cid now =
        ({ repo := save s.repo { b with status := BikeStatus.rented, rental_start_time := some now },
           notifications := s.notifications ++ [(cid, bid)] }, true) ∧
      find_by_id (rent_bike s bid cid now).1.repo bid =
        some { b with status := BikeStatus.rented, rental_start_time := some now }) ∧
    (∀ b, find_by_id s.repo bid = some b → b.status ≠ BikeStatus.available →
      rent_bike s bid cid now = (s, false)) := by
  refine ⟨?_, ?_, ?_⟩
  · intro h
    simp [rent_bike, h]
  · intro b hfind hav
    have hbid : b.id = bid := find_by_id_key hfind
    have hrent : b.rent now =
        ({ b with status := BikeStatus.rented, rental_start_time := some now }, true) := by
      simp [Bike.rent, Bike.is_available, hav]
    have heq : rent_bike s bid cid now =
        ({ repo := save s.repo { b with status := BikeStatus.rented, rental_start_time := some now },
           notifications := s.notifications ++ [(cid, bid)] }, true) := by
      simp [rent_bike, hfind, hrent]
    refine ⟨heq, ?_⟩
    rw [heq]
    simpa [hbid] using
      find_by_id_save_self s.repo { b with status := BikeStatus.rented, rental_start_time := some now }
  · intro b hfind hnav
    have hrent : b.rent now = (b, false) := by
      simp [Bike.rent, Bike.is_available, hnav]
    simp [rent_bike, hfind, hrent]

/-- C1 witness: renting the concrete available bike "A" in the store `s1`. -/
theorem rent_bike_spec_witness :
    rent_bike s1 "A" "cust1" 100 =
      ({ repo := save s1.repo { bikeA with status := BikeStatus.rented, rental_start_time := some 100 },
         notifications := s1.notifications ++ [("cust1", "A")] }, true) ∧
    find_by_id (rent_bike s1 "A" "cust1" 100).1.repo "A" =
      some { bikeA with status := BikeStatus.rented, rental_start_time := some 100 } :=
  (rent_bike_spec s1 "A" "cust1" 100).2.1 bikeA rfl rfl

/-- C7: a second rent_bike on an already-Rented bike returns false, the whole
service state (so in particular the notification log) is unchanged, and the
stored bike record is unchanged. -/
theorem rent_bike_already_rented (s : ServiceState) (bid cid : String) (now : ℚ) (b : Bike)
    (hfind : find_by_id s.repo bid = some b) (hrented : b.status = BikeStatus.rented) :
    rent_bike s bid cid now = (s, false) ∧
    (rent_bike s bid cid now).1.notifications = s.notifications ∧
    find_by_id (rent_bike s bid cid now).1.repo bid = some b := by
  have hrent : b.rent now = (b, false) := by
    simp [Bike.rent, Bike.is_available, hrented]
  have h1 : rent_bike s bid cid now = (s, false) := by
    simp [rent_bike, hfind, hrent]
  exact ⟨h1, by rw [h1], by rw [h1]; exact hfind⟩

/-- C7 witness: renting the concrete already-rented bike "R" in the store `s1`. -/
theorem rent_bike_already_rented_witness :
    rent_bike s1 "R" "cust9" 50 = (s1, false) ∧
    (rent_bike s1 "R" "cust9" 50).1.notifications = s1.notifications ∧
    find_by_id (rent_bike s1 "R" "cust9" 50).1.repo "R" = some bikeR :=
  rent_bike_already_rented s1 "R" "cust9" 50 bikeR rfl rfl

/-- C6: return_bike on the rental service returns false when the bike is
absent (with nothing printed and no state change), and returns true whenever
the bike is present, reporting cost zero when the bike was not rented. -/
theorem return_bike_svc_spec (s : ServiceState) (bid : String) (now : ℚ) :
    (find_by_id s.repo bid = none → return_bike s bid now = (s, false, none)) ∧
    (∀ b, find_by_id s.repo bid = some b →
      (return_bike s bid now).2.1 = true ∧
      (b.status ≠ BikeStatus.rented → (return_bike s bid now).2.2 = some 0)) := by
  constructor
  · intro h
    simp [return_bike, h]
  · intro b hfind
    constructor
    · simp [return_bike, hfind]
    · intro hnr
      have hret : b.return_bike now = (b, 0) := by
        cases hsb : b.status <;> cases hst : b.rental_start_time <;>
          simp_all [Bike.return_bike]
      simp [return_bike, hfind, hret]

/-- C6 witness: returning the absent id "Z" from the empty store and the
present, not-rented bike "A" from the store `s1`. -/
theorem return_bike_svc_spec_witness :
    return_bike { repo := [], notifications := [] } "Z" 5 =
      ({ repo := [], notifications := [] }, false, none) ∧
    (return_bike s1 "A" 5).2.1 = true ∧
    (return_bike s1 "A" 5).2.2 = some 0 :=
  ⟨(return_bike_svc_spec { repo := [], notifications := [] } "Z" 5).1 rfl,
   ((return_bike_svc_spec s1 "A" 5).2 bikeA rfl).1,
   ((return_bike_svc_spec s1 "A" 5).2 bikeA rfl).2 (by decide)⟩

/-- C4: the rental-start timestamp is set iff the status is Rented: the
invariant holds after construction, is preserved by the entity operations
rent and return, and is preserved over every stored record by the service
operations add_bike, rent_bike and return_bike. -/
theorem startTimeInv_preserved :
    (∀ (i m : String) (p : ℚ) (k : BikeKind), startTimeInv (mkBike i m p k)) ∧
    (∀ (b : Bike) (t : ℚ), startTimeInv b → startTimeInv (b.rent t).1) ∧
    (∀ (b : Bike) (now : ℚ), startTimeInv b → startTimeInv (b.return_bike now).1) ∧
    (∀ (s : ServiceState) (d : BikeData) (f : String),
      repoInv s.repo → repoInv (add_bike s d f).1.repo) ∧
    (∀ (s : ServiceState) (bid cid : String) (now : ℚ),
      repoInv s.repo → repoInv (rent_bike s bid cid now).1.repo) ∧
    (∀ (s : ServiceState) (bid : String) (now : ℚ),
      repoInv s.repo → repoInv (return_bike s bid now).1.repo) := by
  refine ⟨startTimeInv_mkBike, startTimeInv_rent, startTimeInv_return, ?_, ?_, ?_⟩
  · intro s d f h
    dsimp only [add_bike]
    split
    · split <;> first
        | exact h
        | exact repoInv_save s.repo _ h (startTimeInv_mkBike _ _ _ _)
    · split
      · split <;> first
          | exact h
          | exact repoInv_save s.repo _ h (startTimeInv_mkBike _ _ _ _)
      · split
        · split <;> first
            | exact h
            | exact repoInv_save s.repo _ h (startTimeInv_mkBike _ _ _ _)
        · exact h
  · intro s bid cid now h
    cases hfind : find_by_id s.repo bid with
    | none => simpa [rent_bike, hfind] using h
    | some b =>
      by_cases ha : b.status = BikeStatus.available
      · have hrent : b.rent now =
            ({ b with status := BikeStatus.rented, rental_start_time := some now }, true) := by
          simp [Bike.rent, Bike.is_available, ha]
        have : repoInv (save s.repo
            { b with status := BikeStatus.rented, rental_start_time := some now }) :=
          repoInv_save _ _ h (by simp [startTimeInv])
        simpa [rent_bike, hfind, hrent] using this
      · have hrent : b.rent now = (b, false) := by
          simp [Bike.rent, Bike.is_available, ha]
        simpa [rent_bike, hfind, hrent] using h
  · intro s bid now h
    cases hfind : find_by_id s.repo bid with
    | none => simpa [return_bike, hfind] using h
    | some b =>
      have hb : startTimeInv b := h b (find_by_id_mem hfind)
      have : repoInv (save s.repo (b.return_bike now).1) :=
        repoInv_save _ _ h (startTimeInv_return b now hb)
      simpa [return_bike, hfind] using this

/-- C4 witness: the invariant holds for the freshly constructed `bikeA`, is
preserved by renting it at time 0, and is preserved over the store `s1` by a
rent_bike call. -/
theorem startTimeInv_preserved_witness :
    startTimeInv ((bikeA.rent 0).1) ∧ repoInv (rent_bike s1 "A" "cust1" 100).1.repo :=
  ⟨startTimeInv_preserved.2.1 bikeA 0 (by decide),
   startTimeInv_preserved.2.2.2.2.1 s1 "A" "cust1" 100 (by decide)⟩

/-- C3 counterexample: for the input dict with type tag "electric" whose
required `battery_capacity` key is absent, add_bike does not construct,
persist or return an identifier as the claim states: it fails with
`KeyError('battery_capacity')` and the catalog store is unchanged. -/
theorem add_bike_missing_battery_cex :
    add_bike s0 dElectricNoBattery "e1" =
      (s0, Except.error (AddError.keyError "battery_capacity")) ∧
    (add_bike s0 dElectricNoBattery "e1").2 ≠ Except.ok "e1" ∧
    (add_bike s0 dElectricNoBattery "e1").1.repo.length = s0.repo.length := by
  refine ⟨rfl, ?_, rfl⟩
  intro hcontra
  simp [add_bike, dElectricNoBattery, s0] at hcontra

/-- C3 (amended): for every input whose type tag is present and unsupported,
add_bike fails with UnknownType and the whole state (hence the store's size)
is unchanged; for every supported type tag whose required fields are present,
it constructs the matching variant, persists it and returns its identifier. -/
theorem add_bike_spec (s : ServiceState) (d : BikeData) (f : String) :
    (∀ tag, d.type_tag = some tag →
      tag ≠ "mountain" → tag ≠ "road" → tag ≠ "electric" →
      add_bike s d f = (s, Except.error (AddError.unknownType tag))) ∧
    (∀ m p, d.type_tag = some "mountain" → d.model = some m → d.price_per_hour = some p →
      add_bike s d f =
        ({ s with repo := save s.repo (mkBike f m p BikeKind.mountain) }, Except.ok f)) ∧
    (∀ m p, d.type_tag = some "road" → d.model = some m → d.price_per_hour = some p →
      add_bike s d f =
        ({ s with repo := save s.repo (mkBike f m p BikeKind.road) }, Except.ok f)) ∧
    (∀ m p bc, d.type_tag = some "electric" → d.model = some m →
      d.price_per_hour = some p → d.battery_capacity = some bc →
      add_bike s d f =
        ({ s with repo := save s.repo (mkBike f m p (BikeKind.electric bc)) }, Except.ok f)) := by
  refine ⟨?_, ?_, ?_, ?_⟩
  · intro tag htag h1 h2 h3
    simp [add_bike, htag, h1, h2, h3]
  · intro m p htag hm hp
    simp [add_bike, htag, hm, hp, mkBike]
  · intro m p htag hm hp
    simp [add_bike, htag, hm, hp, mkBike]
  · intro m p bc htag hm hp hbc
    simp [add_bike, htag, hm, hp, hbc, mkBike]

/-- C3 witness: the unsupported tag "water bike" is rejected with the state
unchanged, and a well-formed electric dict is constructed and persisted. -/
theorem add_bike_spec_witness :
    add_bike s0 dWater "w1" = (s0, Except.error (AddError.unknownType "water bike")) ∧
    add_bike s0 dElectric "e1" =
      ({ s0 with repo := save s0.repo (mkBike "e1" "Rad Power" 15 (BikeKind.electric 500)) },
       Except.ok "e1") :=
  ⟨(add_bike_spec s0 dWater "w1").1 "water bike" rfl (by decide) (by decide) (by decide),
   (add_bike_spec s0 dElectric "e1").2.2.2 "Rad Power" 15 500 rfl rfl rfl rfl⟩

/-- C10 counterexample: for the empty input dict (no 'type' key, and no
'model' key either), add_bike does not construct, persist and return the
identifier of a mountain bike: it fails with `KeyError('model')`. -/
theorem add_bike_missing_model_cex :
    add_bike s0 dEmpty "m1" = (s0, Except.error (AddError.keyError "model")) ∧
    (add_bike s0 dEmpty "m1").2 ≠ Except.ok "m1" := by
  refine ⟨rfl, ?_⟩
  intro hcontra
  simp [add_bike, dEmpty, s0] at hcontra

/-- C10 (amended): when the 'type' key is absent add_bike never fails with
UnknownType; it defaults the tag to "mountain", and provided the required
fields model and price_per_hour are present it constructs, persists and
returns the identifier of a mountain bike (with a KeyError instead when one
of them is absent). -/
theorem add_bike_default_type (s : ServiceState) (d : BikeData) (f : String)
    (htag : d.type_tag = none) :
    (∀ tag, (add_bike s d f).2 ≠ Except.error (AddError.unknownType tag)) ∧
    (∀ m p, d.model = some m → d.price_per_hour = some p →
      add_bike s d f =
        ({ s with repo := save s.repo (mkBike f m p BikeKind.mountain) }, Except.ok f)) := by
  constructor
  · intro tag
    cases hm : d.model <;> cases hp : d.price_per_hour <;>
      simp [add_bike, htag, hm, hp]
  · intro m p hm hp
    simp [add_bike, htag, hm, hp, mkBike]

/-- C10 witness: the dict with no 'type' key but model and price present
yields a persisted mountain bike, and is in particular no UnknownType
failure. -/
theorem add_bike_default_type_witness :
    (add_bike s0 dNoType "m1").2 ≠ Except.error (AddError.unknownType "mountain") ∧
    add_bike s0 dNoType "m1" =
      ({ s0 with repo := save s0.repo (mkBike "m1" "Trek Marlin" 10 BikeKind.mountain) },
       Except.ok "m1") :=
  ⟨(add_bike_default_type s0 dNoType "m1" rfl).1 "mountain",
   (add_bike_default_type s0 dNoType "m1" rfl).2 "Trek Marlin" 10 rfl rfl⟩

end BikeRental
